import Mathlib

/-!
# Verification of the Sabadell advisor workflow (src/4.MAFAdvisorWorkflowEmail.py)

A shallow embedding of the workflow's data model, routing conditions,
bridge executors and terminal sinks, together with theorems about them.

Modelling decisions:

* A Python string that travels between stages is modelled by `SourceText`:
  its raw character data plus its validation outcome under each pydantic
  schema the workflow parses it with.  The three outcome fields are
  independent because pydantic (v2, default config) ignores unknown JSON
  fields, so one string may validate under several schemas, or none.
* A Python call that may raise is modelled in `Except PyErr`; the source's
  `try/except Exception` blocks become `pyTry`, whose handler (which in the
  source only prints and/or returns a value, and cannot itself raise)
  produces the `.ok` result of the except branch.
* The `message: Any` argument of the routing conditions is modelled by
  `PyObject`: either an `AgentExecutorResponse` or any other value
  (`PyObject.other`, carrying a string such as a raw text message); the
  conditions only inspect it through the `isinstance` test, as the source
  does.
* Side effects of an `@executor` function (`ctx.send_message`,
  `ctx.yield_output`, `print`) are modelled by returning the lists of
  messages sent, outputs yielded and diagnostics printed.
-/

/-- A Python exception value (here: the message of a pydantic
`ValidationError`). -/
abbrev PyErr := String

/-- `try: body except Exception as e: return handler e` for a body whose
except-handler cannot itself raise.  The result type stays in `Except` so
that totality ("the function never raises") is a theorem, not a typing
accident. -/
def pyTry {α : Type} (body : Except PyErr α) (handler : PyErr → α) : Except PyErr α :=
  match body with
  | .ok a => .ok a
  | .error e => .ok (handler e)

/-- `NeedProfile` (src/4.MAFAdvisorWorkflowEmail.py lines 34-40): the
Need Profiler's structured output. -/
structure NeedProfile where
  product_type : String
  customer_type : String
  key_constraints : List String
  missing_info : List String
  structured_query : String
deriving DecidableEq, Repr

/-- `ClarityExplanation` (lines 43-48): the Clarity Writer's structured
output. -/
structure ClarityExplanation where
  summary : String
  pros_cons : List String
  cta : String
  full_content : String
deriving DecidableEq, Repr

/-- `ComplianceReview` (lines 51-56): the Compliance Checker's decision. -/
structure ComplianceReview where
  approved : Bool
  issues : List String
  feedback : String
  content : String
deriving DecidableEq, Repr

/-- `FinalResponse` (lines 59-61): the Publisher's structured output. -/
structure FinalResponse where
  content : String
deriving DecidableEq, Repr

/-- A Python string as the workflow observes it: its raw character data and
its validation outcome under each pydantic schema that
`model_validate_json` is called with.  `none` means the call raises
`ValidationError` on this string.  The outcomes are independent fields
because pydantic ignores unknown JSON fields, so no exclusivity between
schemas may be assumed. -/
structure SourceText where
  raw : String
  asNeedProfile : Option NeedProfile
  asComplianceReview : Option ComplianceReview
  asFinalResponse : Option FinalResponse
deriving DecidableEq, Repr

/-- `NeedProfile.model_validate_json(text)`: returns the validated record or
raises a `ValidationError`. -/
def NeedProfile.model_validate_json (t : SourceText) : Except PyErr NeedProfile :=
  match t.asNeedProfile with
  | some p => .ok p
  | none => .error ("ValidationError: input is not a valid NeedProfile: " ++ t.raw)

/-- `ComplianceReview.model_validate_json(text)`: returns the validated
record or raises a `ValidationError`. -/
def ComplianceReview.model_validate_json (t : SourceText) : Except PyErr ComplianceReview :=
  match t.asComplianceReview with
  | some r => .ok r
  | none => .error ("ValidationError: input is not a valid ComplianceReview: " ++ t.raw)

/-- `FinalResponse.model_validate_json(text)`: returns the validated record
or raises a `ValidationError`. -/
def FinalResponse.model_validate_json (t : SourceText) : Except PyErr FinalResponse :=
  match t.asFinalResponse with
  | some f => .ok f
  | none => .error ("ValidationError: input is not a valid FinalResponse: " ++ t.raw)

/-- `agent_run_response`: the wrapper the agent framework puts around a
stage's textual output; the conditions and executors read its `.text`. -/
structure AgentRunResponse where
  text : SourceText
deriving DecidableEq, Repr

/-- `AgentExecutorResponse`: the message type an `AgentExecutor` emits;
carries the run response whose `.text` the workflow parses. -/
structure AgentExecutorResponse where
  agent_run_response : AgentRunResponse
deriving DecidableEq, Repr

/-- The `message: Any` input of a routing condition: either an
`AgentExecutorResponse`, or any other Python value (modelled with a string
payload, e.g. a raw text message) — the source only distinguishes the two
through `isinstance(message, AgentExecutorResponse)`. -/
inductive PyObject where
  | agentExecutorResponse (resp : AgentExecutorResponse)
  | other (val : String)
deriving DecidableEq, Repr

/-- `approved_condition` (lines 68-77): route to publisher only if
compliance approved.  Non-`AgentExecutorResponse` inputs return `True`;
otherwise the text is parsed as a `ComplianceReview` and `approved` is
returned, any exception yielding `False`. -/
def approved_condition (message : PyObject) : Except PyErr Bool :=
  match message with
  | .other _ => .ok true
  | .agentExecutorResponse resp =>
      pyTry
        (do
          let review ← ComplianceReview.model_validate_json resp.agent_run_response.text
          pure review.approved)
        (fun _ => false)

/-- `rejected_condition` (lines 80-89): route to clarity writer only if
compliance rejected.  Same shape as `approved_condition` with the parsed
`approved` negated. -/
def rejected_condition (message : PyObject) : Except PyErr Bool :=
  match message with
  | .other _ => .ok true
  | .agentExecutorResponse resp =>
      pyTry
        (do
          let review ← ComplianceReview.model_validate_json resp.agent_run_response.text
          pure (!review.approved))
        (fun _ => false)

/-- `missing_info_condition` (lines 92-101): check if we need more info from
the user.  Non-`AgentExecutorResponse` inputs return `False`; otherwise the
text is parsed as a `NeedProfile` and `len(missing_info) > 0` is returned,
any exception yielding `False`. -/
def missing_info_condition (message : PyObject) : Except PyErr Bool :=
  match message with
  | .other _ => .ok false
  | .agentExecutorResponse resp =>
      pyTry
        (do
          let profile ← NeedProfile.model_validate_json resp.agent_run_response.text
          pure (decide (profile.missing_info.length > 0)))
        (fun _ => false)

/-- `has_complete_info_condition` (lines 104-116): check if we can proceed
to the Copilot agent.  Non-`AgentExecutorResponse` inputs return `False`;
otherwise the text is parsed as a `NeedProfile` and
`len(missing_info) == 0` is returned; the except-handler additionally
prints a diagnostic (an effect with no bearing on the returned value) and
yields `False`. -/
def has_complete_info_condition (message : PyObject) : Except PyErr Bool :=
  match message with
  | .other _ => .ok false
  | .agentExecutorResponse resp =>
      pyTry
        (do
          let profile ← NeedProfile.model_validate_json resp.agent_run_response.text
          pure (profile.missing_info.length == 0))
        (fun _ => false)

/-- Message role, from the agent framework's `Role` enum (the workflow only
constructs user-role messages). -/
inductive Role where
  | user
  | system
  | assistant
deriving DecidableEq, Repr

/-- `ChatMessage(role, text)` as the bridge executors construct it. -/
structure ChatMessage where
  role : Role
  text : String
deriving DecidableEq, Repr

/-- `AgentExecutorRequest(messages=..., should_respond=...)`: the request a
bridge executor sends downstream via `ctx.send_message`. -/
structure AgentExecutorRequest where
  messages : List ChatMessage
  should_respond : Bool
deriving DecidableEq, Repr

/-- `to_copilot_query` (lines 123-136): convert a need profile into a
Copilot Studio query.  Parses the response text as a `NeedProfile`
(uncaught: a parse failure propagates) and sends one user-role message
carrying `structured_query`.  The returned list collects the
`ctx.send_message` calls. -/
def to_copilot_query (response : AgentExecutorResponse) :
    Except PyErr (List AgentExecutorRequest) := do
  let profile ← NeedProfile.model_validate_json response.agent_run_response.text
  let copilot_query : ChatMessage := { role := Role.user, text := profile.structured_query }
  pure [{ messages := [copilot_query], should_respond := true }]

/-- `to_clarity_request` (lines 139-152): wrap the Copilot output text in a
rewrite instruction and send it as one user-role message. -/
def to_clarity_request (response : AgentExecutorResponse) :
    Except PyErr (List AgentExecutorRequest) := do
  let copilot_output := response.agent_run_response.text.raw
  let clarity_msg : ChatMessage :=
    { role := Role.user,
      text := "Reescribe esta información de productos bancarios en lenguaje claro para el cliente:\n\n"
        ++ copilot_output }
  pure [{ messages := [clarity_msg], should_respond := true }]

/-- `to_clarity_revision` (lines 155-173): parse the compliance review
(uncaught: a parse failure propagates) and send one user-role revision
request concatenating issues, feedback and original content. -/
def to_clarity_revision (response : AgentExecutorResponse) :
    Except PyErr (List AgentExecutorRequest) := do
  let review ← ComplianceReview.model_validate_json response.agent_run_response.text
  let revision_msg : ChatMessage :=
    { role := Role.user,
      text := "Por favor, revisa el contenido según este feedback de cumplimiento normativo:\n\n"
        ++ "PROBLEMAS DETECTADOS:\n"
        ++ String.intercalate "\n" (review.issues.map (fun issue => "- " ++ issue))
        ++ "\n\n"
        ++ "FEEDBACK:\n" ++ review.feedback ++ "\n\n"
        ++ "CONTENIDO ORIGINAL:\n" ++ review.content }
  pure [{ messages := [revision_msg], should_respond := true }]

/-- The observable effects of a terminal sink executor: the
`ctx.yield_output` calls and the `print` diagnostics, in order. -/
structure SinkEffect where
  outputs : List String
  diagnostics : List String
deriving DecidableEq, Repr

/-- `request_more_info` (lines 176-190): parse the need profile (uncaught:
a parse failure propagates) and yield the missing-information listing. -/
def request_more_info (response : AgentExecutorResponse) :
    Except PyErr SinkEffect := do
  let profile ← NeedProfile.model_validate_json response.agent_run_response.text
  let missing_items :=
    String.intercalate "\n" (profile.missing_info.map (fun item => "- " ++ item))
  let output :=
    "📋 **Necesitamos más información para ayudarte mejor:**\n\n"
      ++ missing_items
      ++ "\n\nPor favor, proporciona estos datos para poder ofrecerte las mejores opciones del Banco Sabadell."
  pure { outputs := [output], diagnostics := [] }

/-- `publish_final_response` (lines 193-206): try to parse the publisher
output as a `FinalResponse` and yield its `content`; on any parse failure,
print two warning diagnostics and yield the raw text as-is instead of
raising. -/
def publish_final_response (response : AgentExecutorResponse) :
    Except PyErr SinkEffect :=
  pyTry
    (do
      let final ← FinalResponse.model_validate_json response.agent_run_response.text
      pure { outputs := ["✅ **RESPUESTA FINAL:**\n\n" ++ final.content], diagnostics := [] })
    (fun e =>
      let raw := response.agent_run_response.text.raw
      let warn1 := "⚠️  Warning: Could not parse Publisher output as JSON: " ++ e
      let warn2 := "Raw output: " ++ raw.take 500
      { outputs := ["✅ **RESPUESTA FINAL:**\n\n" ++ raw], diagnostics := [warn1, warn2] })

/-- The nodes of the graph assembled by `create_sabadell_advisor_workflow`
(lines 379-411): the five `AgentExecutor` stages and the five `@executor`
bridge/sink functions, each named by its executor id. -/
inductive Node where
  | need_profiler
  | sabadell_copilot_expert
  | clarity_writer
  | compliance_checker
  | publisher
  | to_copilot_query
  | to_clarity_request
  | to_clarity_revision
  | request_more_info
  | publish_final_response
deriving DecidableEq, Repr

/-- One `add_edge(src, dst, condition=...)` call of the builder. -/
structure WEdge where
  src : Node
  dst : Node
  condition : Option (PyObject → Except PyErr Bool)

/-- The edge list of `create_sabadell_advisor_workflow`, in the order the
builder adds the edges (lines 385-408). -/
def workflow_edges : List WEdge :=
  [⟨.need_profiler, .request_more_info, some missing_info_condition⟩,
   ⟨.need_profiler, .to_copilot_query, some has_complete_info_condition⟩,
   ⟨.to_copilot_query, .sabadell_copilot_expert, none⟩,
   ⟨.sabadell_copilot_expert, .to_clarity_request, none⟩,
   ⟨.to_clarity_request, .clarity_writer, none⟩,
   ⟨.clarity_writer, .compliance_checker, none⟩,
   ⟨.compliance_checker, .publisher, some approved_condition⟩,
   ⟨.publisher, .publish_final_response, none⟩,
   ⟨.compliance_checker, .to_clarity_revision, some rejected_condition⟩,
   ⟨.to_clarity_revision, .clarity_writer, none⟩]

/-- Modelled from the spec: edge-guard evaluation by the WorkflowEngine
(§4.4) — the engine itself is the external agent framework, not code of
this repository.  An absent condition always fires; a present one fires on
a `True` result (conditions are total per §4.2, so the `.error` case is
unreachable — made explicit as "does not fire"). -/
def condFires (c : Option (PyObject → Except PyErr Bool)) (o : PyObject) : Bool :=
  match c with
  | none => true
  | some f =>
      match f o with
      | .ok b => b
      | .error _ => false

/-- The two terminal sink nodes (§4.4: terminal states). -/
def isSink (n : Node) : Bool :=
  n == Node.request_more_info || n == Node.publish_final_response

/-- Running a terminal sink's executor on the dispatched message:
`(outputs yielded, run-level errors)`.  A sink receiving a
non-`AgentExecutorResponse`, or whose executor raises, produces a run-level
error and no output (§4.4: failure aborts the run, no partial output). -/
def runSink (n : Node) (msg : PyObject) : List String × List PyErr :=
  match msg with
  | .other v => ([], ["TypeError: sink expects AgentExecutorResponse, got: " ++ v])
  | .agentExecutorResponse resp =>
      match n with
      | .request_more_info =>
          match request_more_info resp with
          | .ok eff => (eff.outputs, [])
          | .error e => ([], [e])
      | .publish_final_response =>
          match publish_final_response resp with
          | .ok eff => (eff.outputs, [])
          | .error e => ([], [e])
      | _ => ([], [])

/-- Modelled from the spec: the state of one WorkflowRun (§3, §4.4) — the
currently active node activations, the terminal outputs yielded so far and
the run-level errors surfaced so far.  The engine executing the graph is
the external agent framework. -/
structure EngineState where
  active : List (Node × PyObject)
  outputs : List String
  errors : List PyErr
deriving DecidableEq, Repr

/-- Modelled from the spec: dispatch after a non-sink node `n` completes
with output `o` (§4.4) — every outgoing edge whose condition is absent or
true receives `o`. -/
def dispatchNode (o : PyObject) (n : Node) : List (Node × PyObject) :=
  (workflow_edges.filter (fun e => e.src == n && condFires e.condition o)).map
    (fun e => (e.dst, o))

/-- Modelled from the spec: one engine step (§4.4) — every active node
completes, sinks yield output or surface a run-level error, and each
non-sink node's output is dispatched along its firing edges.  `behavior`
abstracts what record each node produces from its input: agent stages are
external opaque processors (§2), and a bridge executor's output content
never reaches a condition (all out-edges of bridge nodes are
unconditional), so the abstraction loses nothing about routing. -/
def stepEngine (behavior : Node → PyObject → PyObject) (s : EngineState) : EngineState :=
  let results := s.active.map (fun a =>
    if isSink a.1 then
      (([] : List (Node × PyObject)), runSink a.1 a.2)
    else
      (dispatchNode (behavior a.1 a.2) a.1, ([] : List String), ([] : List PyErr)))
  { active := (results.map (fun r => r.1)).flatten,
    outputs := s.outputs ++ (results.map (fun r => r.2.1)).flatten,
    errors := s.errors ++ (results.map (fun r => r.2.2)).flatten }

/-- EJEMPLO 1 of the Need Profiler's instructions (lines 239-248): the
profile for "Quiero hipoteca tipo fijo, gano 3000€, soy nuevo cliente" —
sufficient information. -/
def ejemplo1Profile : NeedProfile :=
  { product_type := "hipoteca",
    customer_type := "nuevo",
    key_constraints := ["tipo fijo", "ingresos 3000€"],
    missing_info := [],
    structured_query := "Cliente nuevo con ingresos de 3.000€/mes busca hipoteca a tipo fijo. Explica las opciones de hipotecas fijas del Banco Sabadell y sus condiciones generales." }

/-- EJEMPLO 2 of the Need Profiler's instructions (lines 249-257): the
profile for "Quiero información del banco" — insufficient information. -/
def ejemplo2Profile : NeedProfile :=
  { product_type := "sin especificar",
    customer_type := "sin especificar",
    key_constraints := [],
    missing_info := ["qué tipo de producto o servicio necesitas"],
    structured_query := "" }

/-- A `NeedProfile` accepted by the schema of lines 34-40 whose
`missing_info` is empty while `structured_query` is empty too: the schema
declares five plain fields and no validator relating them. -/
def emptyQueryProfile : NeedProfile :=
  { product_type := "hipoteca",
    customer_type := "nuevo",
    key_constraints := [],
    missing_info := [],
    structured_query := "" }

/-- A stage output text that validates under none of the schemas (e.g. free
prose instead of JSON). -/
def unparsedText : SourceText :=
  { raw := "esto no es JSON", asNeedProfile := none,
    asComplianceReview := none, asFinalResponse := none }

/-- A Compliance Checker output text validating as an approving review. -/
def approvedReviewText : SourceText :=
  { raw := "review ok",
    asNeedProfile := none,
    asComplianceReview := some { approved := true, issues := [], feedback := "", content := "texto aprobado" },
    asFinalResponse := none }

/-- A Compliance Checker output text validating as a rejecting review. -/
def rejectedReviewText : SourceText :=
  { raw := "review ko",
    asNeedProfile := none,
    asComplianceReview := some { approved := false, issues := ["falta disclaimer"], feedback := "añade el disclaimer", content := "borrador" },
    asFinalResponse := none }

/-- A Need Profiler output text validating as a complete profile (empty
`missing_info`). -/
def completeProfileText : SourceText :=
  { raw := "perfil completo",
    asNeedProfile := some { product_type := "hipoteca", customer_type := "nuevo", key_constraints := [], missing_info := [], structured_query := "hipotecas a tipo fijo" },
    asComplianceReview := none,
    asFinalResponse := none }

/-- A Publisher output text validating as a `FinalResponse`. -/
def finalResponseText : SourceText :=
  { raw := "respuesta final",
    asNeedProfile := none,
    asComplianceReview := none,
    asFinalResponse := some { content := "## Hipotecas\ncontenido publicado" } }

/-- The rejecting review as an `AgentExecutorResponse` message. -/
def rejectedReviewMsg : PyObject :=
  PyObject.agentExecutorResponse ⟨⟨rejectedReviewText⟩⟩

/-- The complete profile as an `AgentExecutorResponse` message. -/
def completeProfileMsg : PyObject :=
  PyObject.agentExecutorResponse ⟨⟨completeProfileText⟩⟩

/-- Modelled from the spec: the stage behaviors of the synthetic run of §8
("a synthetic run where Compliance Checker always returns
`approved=false`") — each stage is an opaque processor (§2).  The Need
Profiler returns a complete profile, the Compliance Checker always returns
a rejecting review, and every other node's output is an opaque value that
no condition inspects (every out-edge of those nodes is unconditional). -/
def alwaysRejectBehavior : Node → PyObject → PyObject := fun n _ =>
  match n with
  | .need_profiler => completeProfileMsg
  | .compliance_checker => rejectedReviewMsg
  | _ => PyObject.other "salida opaca de etapa"

/-- The initial state of the synthetic run: the customer question enters at
the start node `need_profiler` (line 385). -/
def rejectRunStart : EngineState :=
  { active := [(Node.need_profiler, PyObject.other "Quiero hipoteca tipo fijo")],
    outputs := [], errors := [] }

/-- The synthetic always-rejected run after `n` engine steps. -/
def rejectRun (n : Nat) : EngineState :=
  (stepEngine alwaysRejectBehavior)^[n] rejectRunStart

/-- The states the always-rejected run visits: after the linear prefix
(profiling, expert lookup, first clarity pass) it cycles through
clarity_writer → compliance_checker → to_clarity_revision forever. -/
def rejectRunStates : List EngineState :=
  [rejectRun 0, rejectRun 1, rejectRun 2, rejectRun 3, rejectRun 4, rejectRun 5, rejectRun 6]

/-- The always-rejected run never terminates: after any number of engine
steps it has yielded no terminal output, surfaced no run-level error, and
still has an active node. -/
def rejectRunNeverTerminates : Prop :=
  ∀ n : Nat, (rejectRun n).outputs = [] ∧ (rejectRun n).errors = []
    ∧ (rejectRun n).active.isEmpty = false

/-- `len > 0` and `len == 0` cannot both hold: the boolean the
missing-info pair reduces to. -/
theorem missing_and_complete_incompatible (n : Nat) :
    (decide (n > 0) && (n == 0)) = false := by
  cases n with
  | zero => rfl
  | succ k => simp

/-- A try-block whose handler cannot raise always returns a value. -/
theorem pyTry_ok {α : Type} (body : Except PyErr α) (handler : PyErr → α) :
    ∃ a, pyTry body handler = Except.ok a := by
  cases body with
  | ok a => exact ⟨a, rfl⟩
  | error e => exact ⟨handler e, rfl⟩

/-- Value of `approved_condition` on an `AgentExecutorResponse`: the parsed
review's `approved` field, or `false` when the text does not validate. -/
theorem approved_condition_agent (resp : AgentExecutorResponse) :
    approved_condition (PyObject.agentExecutorResponse resp) =
      Except.ok (match resp.agent_run_response.text.asComplianceReview with
        | some rev => rev.approved
        | none => false) := by
  cases h : resp.agent_run_response.text.asComplianceReview <;>
    simp [approved_condition, pyTry, ComplianceReview.model_validate_json, h, Except.bind]

/-- Value of `rejected_condition` on an `AgentExecutorResponse`: the parsed
review's `approved` field negated, or `false` when the text does not
validate. -/
theorem rejected_condition_agent (resp : AgentExecutorResponse) :
    rejected_condition (PyObject.agentExecutorResponse resp) =
      Except.ok (match resp.agent_run_response.text.asComplianceReview with
        | some rev => !rev.approved
        | none => false) := by
  cases h : resp.agent_run_response.text.asComplianceReview <;>
    simp [rejected_condition, pyTry, ComplianceReview.model_validate_json, h, Except.bind]

/-- Value of `missing_info_condition` on an `AgentExecutorResponse`:
whether the parsed profile's `missing_info` is non-empty, or `false` when
the text does not validate. -/
theorem missing_info_condition_agent (resp : AgentExecutorResponse) :
    missing_info_condition (PyObject.agentExecutorResponse resp) =
      Except.ok (match resp.agent_run_response.text.asNeedProfile with
        | some p => decide (p.missing_info.length > 0)
        | none => false) := by
  cases h : resp.agent_run_response.text.asNeedProfile <;>
    simp [missing_info_condition, pyTry, NeedProfile.model_validate_json, h, Except.bind]

/-- Value of `has_complete_info_condition` on an `AgentExecutorResponse`:
whether the parsed profile's `missing_info` is empty, or `false` when the
text does not validate. -/
theorem has_complete_info_condition_agent (resp : AgentExecutorResponse) :
    has_complete_info_condition (PyObject.agentExecutorResponse resp) =
      Except.ok (match resp.agent_run_response.text.asNeedProfile with
        | some p => p.missing_info.length == 0
        | none => false) := by
  cases h : resp.agent_run_response.text.asNeedProfile <;>
    simp [has_complete_info_condition, pyTry, NeedProfile.model_validate_json, h, Except.bind]

/-- Claim C1, counterexample: a value that is not an `AgentExecutorResponse`
(here a raw string) cannot be interpreted as a `ComplianceReview`, yet
`approved_condition` returns `True` on it (line 71), not `False` as the
claim states. -/
theorem C1_counterexample :
    approved_condition (PyObject.other "hola banco") = Except.ok true := rfl

/-- Claim C1 (amended): for every `AgentExecutorResponse` whose text fails
to validate as the expected record type, `missing_info_condition`,
`has_complete_info_condition` and `approved_condition` all return `False`
(fail-closed) and never raise; in particular `approved_condition` returns
`False` whenever its input is an `AgentExecutorResponse` whose text cannot
be interpreted as a `ComplianceReview`. -/
theorem C1_fail_closed_on_agent_responses (resp : AgentExecutorResponse)
    (hNP : resp.agent_run_response.text.asNeedProfile = none)
    (hCR : resp.agent_run_response.text.asComplianceReview = none) :
    missing_info_condition (PyObject.agentExecutorResponse resp) = Except.ok false
    ∧ has_complete_info_condition (PyObject.agentExecutorResponse resp) = Except.ok false
    ∧ approved_condition (PyObject.agentExecutorResponse resp) = Except.ok false := by
  refine ⟨?_, ?_, ?_⟩
  · rw [missing_info_condition_agent, hNP]
  · rw [has_complete_info_condition_agent, hNP]
  · rw [approved_condition_agent, hCR]

/-- Claim C1, witness: the three conditions on a concrete unparseable
response text. -/
theorem C1_witness :
    missing_info_condition (PyObject.agentExecutorResponse ⟨⟨unparsedText⟩⟩) = Except.ok false
    ∧ has_complete_info_condition (PyObject.agentExecutorResponse ⟨⟨unparsedText⟩⟩) = Except.ok false
    ∧ approved_condition (PyObject.agentExecutorResponse ⟨⟨unparsedText⟩⟩) = Except.ok false :=
  C1_fail_closed_on_agent_responses ⟨⟨unparsedText⟩⟩ rfl rfl

/-- Claim C2, counterexample: on an input that is not an
`AgentExecutorResponse`, `approved_condition` and `rejected_condition`
both return `True` (lines 70-71 and 82-83), so the pair is not mutually
exclusive over every input message. -/
theorem C2_counterexample :
    approved_condition (PyObject.other "42") = Except.ok true
    ∧ rejected_condition (PyObject.other "42") = Except.ok true := ⟨rfl, rfl⟩

/-- Claim C2 (amended): for every `AgentExecutorResponse` input, at most
one of `approved_condition` and `rejected_condition` returns true; for
every input of any shape, at most one of `missing_info_condition` and
`has_complete_info_condition` returns true. -/
theorem C2_mutually_exclusive_pairs :
    (∀ resp : AgentExecutorResponse, ∃ a r : Bool,
      approved_condition (PyObject.agentExecutorResponse resp) = Except.ok a
      ∧ rejected_condition (PyObject.agentExecutorResponse resp) = Except.ok r
      ∧ (a && r) = false)
    ∧ (∀ m : PyObject, ∃ mi ci : Bool,
      missing_info_condition m = Except.ok mi
      ∧ has_complete_info_condition m = Except.ok ci
      ∧ (mi && ci) = false) := by
  constructor
  · intro resp
    refine ⟨_, _, approved_condition_agent resp, rejected_condition_agent resp, ?_⟩
    cases h : resp.agent_run_response.text.asComplianceReview with
    | none => rfl
    | some rev => cases hb : rev.approved <;> simp
  · intro m
    cases m with
    | other v => exact ⟨false, false, rfl, rfl, rfl⟩
    | agentExecutorResponse resp =>
      refine ⟨_, _, missing_info_condition_agent resp, has_complete_info_condition_agent resp, ?_⟩
      cases h : resp.agent_run_response.text.asNeedProfile with
      | none => rfl
      | some p => exact missing_and_complete_incompatible p.missing_info.length

/-- Claim C3: for every response message whose text is a well-formed
`ComplianceReview` record `rev`, `approved_condition` returns exactly
`rev.approved` and `rejected_condition` returns exactly `not rev.approved`. -/
theorem C3_compliance_conditions_match_review (resp : AgentExecutorResponse)
    (rev : ComplianceReview)
    (h : resp.agent_run_response.text.asComplianceReview = some rev) :
    approved_condition (PyObject.agentExecutorResponse resp) = Except.ok rev.approved
    ∧ rejected_condition (PyObject.agentExecutorResponse resp) = Except.ok (!rev.approved) := by
  constructor
  · rw [approved_condition_agent, h]
  · rw [rejected_condition_agent, h]

/-- Claim C3, witness: a concrete approving review. -/
theorem C3_witness :
    approved_condition (PyObject.agentExecutorResponse ⟨⟨approvedReviewText⟩⟩) = Except.ok true
    ∧ rejected_condition (PyObject.agentExecutorResponse ⟨⟨approvedReviewText⟩⟩) = Except.ok false :=
  C3_compliance_conditions_match_review ⟨⟨approvedReviewText⟩⟩
    { approved := true, issues := [], feedback := "", content := "texto aprobado" } rfl

/-- Claim C4: for every response message whose text is a well-formed
`NeedProfile` record `p`, the following are equivalent: `p.missing_info`
is empty, `has_complete_info_condition` returns true, and
`missing_info_condition` returns false. -/
theorem C4_need_profile_condition_equivalences (resp : AgentExecutorResponse)
    (p : NeedProfile)
    (h : resp.agent_run_response.text.asNeedProfile = some p) :
    (p.missing_info = [] ↔
      has_complete_info_condition (PyObject.agentExecutorResponse resp) = Except.ok true)
    ∧ (p.missing_info = [] ↔
      missing_info_condition (PyObject.agentExecutorResponse resp) = Except.ok false) := by
  constructor
  · rw [has_complete_info_condition_agent, h]
    simp [List.length_eq_zero]
  · rw [missing_info_condition_agent, h]
    simp [List.length_eq_zero]

/-- Claim C4, witness: a concrete complete profile — empty `missing_info`,
`has_complete_info_condition` true, `missing_info_condition` false. -/
theorem C4_witness :
    (([] : List String) = [] ↔
      has_complete_info_condition (PyObject.agentExecutorResponse ⟨⟨completeProfileText⟩⟩) = Except.ok true)
    ∧ (([] : List String) = [] ↔
      missing_info_condition (PyObject.agentExecutorResponse ⟨⟨completeProfileText⟩⟩) = Except.ok false) :=
  C4_need_profile_condition_equivalences ⟨⟨completeProfileText⟩⟩
    { product_type := "hipoteca", customer_type := "nuevo", key_constraints := [], missing_info := [], structured_query := "hipotecas a tipo fijo" } rfl

/-- Claim C5: all four routing conditions are total — on every input of any
shape each returns a boolean result and never raises. -/
theorem C5_conditions_total (m : PyObject) :
    ∃ a r mi ci : Bool,
      approved_condition m = Except.ok a
      ∧ rejected_condition m = Except.ok r
      ∧ missing_info_condition m = Except.ok mi
      ∧ has_complete_info_condition m = Except.ok ci := by
  cases m with
  | other v => exact ⟨true, true, false, false, rfl, rfl, rfl, rfl⟩
  | agentExecutorResponse resp =>
    exact ⟨_, _, _, _, approved_condition_agent resp, rejected_condition_agent resp,
      missing_info_condition_agent resp, has_complete_info_condition_agent resp⟩

/-- Claim C6: for every response whose text is a well-formed `NeedProfile`
record `p`, `to_copilot_query` sends exactly one request holding one
user-role message whose text is `p.structured_query` unchanged. -/
theorem C6_forwards_structured_query_verbatim (resp : AgentExecutorResponse)
    (p : NeedProfile)
    (h : resp.agent_run_response.text.asNeedProfile = some p) :
    to_copilot_query resp =
      Except.ok [{ messages := [{ role := Role.user, text := p.structured_query }], should_respond := true }] := by
  simp [to_copilot_query, NeedProfile.model_validate_json, h]

/-- Claim C6, witness: the concrete complete profile's `structured_query`
is forwarded verbatim. -/
theorem C6_witness :
    to_copilot_query ⟨⟨completeProfileText⟩⟩ =
      Except.ok [{ messages := [{ role := Role.user, text := "hipotecas a tipo fijo" }], should_respond := true }] :=
  C6_forwards_structured_query_verbatim ⟨⟨completeProfileText⟩⟩
    { product_type := "hipoteca", customer_type := "nuevo", key_constraints := [], missing_info := [], structured_query := "hipotecas a tipo fijo" } rfl

/-- Claim C7: `publish_final_response` never raises; when the Publisher
text does not validate as a `FinalResponse` it yields one terminal output
synthesized from the raw stage text and prints diagnostics, and when the
text validates it yields one terminal output containing the parsed
`content` field. -/
theorem C7_publisher_fallback (resp : AgentExecutorResponse) :
    ∃ (out : String) (diags : List String),
      publish_final_response resp = Except.ok { outputs := [out], diagnostics := diags }
      ∧ ((resp.agent_run_response.text.asFinalResponse = none
            ∧ out = "✅ **RESPUESTA FINAL:**\n\n" ++ resp.agent_run_response.text.raw
            ∧ diags.isEmpty = false)
        ∨ (∃ f : FinalResponse, resp.agent_run_response.text.asFinalResponse = some f
            ∧ out = "✅ **RESPUESTA FINAL:**\n\n" ++ f.content
            ∧ diags = [])) := by
  cases h : resp.agent_run_response.text.asFinalResponse with
  | none =>
    refine ⟨"✅ **RESPUESTA FINAL:**\n\n" ++ resp.agent_run_response.text.raw,
      ["⚠️  Warning: Could not parse Publisher output as JSON: "
          ++ ("ValidationError: input is not a valid FinalResponse: " ++ resp.agent_run_response.text.raw),
        "Raw output: " ++ resp.agent_run_response.text.raw.take 500],
      ?_, Or.inl ⟨rfl, rfl, rfl⟩⟩
    simp [publish_final_response, pyTry, FinalResponse.model_validate_json, h, Except.bind]
  | some f =>
    refine ⟨"✅ **RESPUESTA FINAL:**\n\n" ++ f.content, [], ?_, Or.inr ⟨f, rfl, rfl, rfl⟩⟩
    simp [publish_final_response, pyTry, FinalResponse.model_validate_json, h, Except.bind]

/-- The always-rejected run's reachable states are closed under one engine
step: the seventh state steps back to the fourth, closing the
clarity_writer → compliance_checker → to_clarity_revision cycle. -/
theorem rejectRun_closed :
    ∀ s ∈ rejectRunStates, stepEngine alwaysRejectBehavior s ∈ rejectRunStates := by
  decide

/-- Every state of the always-rejected run is one of the seven listed
reachable states. -/
theorem rejectRun_mem (n : Nat) : rejectRun n ∈ rejectRunStates := by
  induction n with
  | zero => decide
  | succ k ih =>
    have hstep : rejectRun (k + 1) = stepEngine alwaysRejectBehavior (rejectRun k) := by
      simp [rejectRun, Function.iterate_succ_apply']
    rw [hstep]
    exact rejectRun_closed _ ih

/-- None of the reachable states has yielded output, surfaced an error or
gone inactive. -/
theorem rejectRun_states_running :
    ∀ s ∈ rejectRunStates, s.outputs = [] ∧ s.errors = [] ∧ s.active.isEmpty = false := by
  decide

/-- Claim C8, counterexample: in the synthetic run whose Compliance Checker
always returns `approved=false`, the workflow loops through the Clarity
Writer revision cycle indefinitely — after any number of engine steps no
terminal output and no run-level error has been produced, refuting the
claimed bounded-revision termination (no maximum revision count exists in
the built graph). -/
theorem C8_counterexample : rejectRunNeverTerminates := by
  intro n
  exact rejectRun_states_running _ (rejectRun_mem n)

/-- Claim C8 (amended): the built workflow has no maximum revision count —
in a run where the Compliance Checker always returns `approved=false` the
engine never yields terminal output, never surfaces a run-level error,
always keeps an active node, and revisits the same revision-loop state
every three steps (`rejectRun 7 = rejectRun 4`). -/
theorem C8_unbounded_revision_loop :
    (∀ n : Nat, (rejectRun n).outputs = [] ∧ (rejectRun n).errors = []
      ∧ (rejectRun n).active.isEmpty = false)
    ∧ rejectRun 7 = rejectRun 4 := by
  constructor
  · intro n
    exact rejectRun_states_running _ (rejectRun_mem n)
  · decide

/-- Claim C9, counterexample: the `NeedProfile` schema (five plain fields,
no cross-field validator) admits a record whose `missing_info` is empty
while `structured_query` is empty too, violating the claimed invariant. -/
theorem C9_counterexample :
    emptyQueryProfile.missing_info = [] ∧ emptyQueryProfile.structured_query = "" :=
  ⟨rfl, rfl⟩

set_option maxRecDepth 8192 in
/-- Claim C9 (amended): the invariant "`missing_info` empty ⇒
`structured_query` non-empty" is not enforced by the `NeedProfile` schema;
it does hold of the two example profiles spelled out in the Need Profiler's
instructions — EJEMPLO 1 has empty `missing_info` with a non-empty
`structured_query`, and EJEMPLO 2 has non-empty `missing_info`. -/
theorem C9_examples_satisfy_invariant :
    (ejemplo1Profile.missing_info = [] ∧ ejemplo1Profile.structured_query.length > 0)
    ∧ ejemplo2Profile.missing_info.length > 0 := by
  refine ⟨⟨rfl, ?_⟩, ?_⟩ <;> decide

/-- Claim C10: on every input that is not an `AgentExecutorResponse`
(modelled as a raw string value), `approved_condition` and
`rejected_condition` both return `True` (the unconditional pass-through
shape) while `missing_info_condition` and `has_complete_info_condition`
both return `False`. -/
theorem C10_non_agent_response_passthrough (v : String) :
    approved_condition (PyObject.other v) = Except.ok true
    ∧ rejected_condition (PyObject.other v) = Except.ok true
    ∧ missing_info_condition (PyObject.other v) = Except.ok false
    ∧ has_complete_info_condition (PyObject.other v) = Except.ok false :=
  ⟨rfl, rfl, rfl, rfl⟩
